import Mathlib

/-!
Shallow embedding of the rrddmma RDMA wrapper library (files
`src/rdma/wr.rs` and `src/rdma/context.rs`), together with theorems
settling the specification's claims about work-request translation and
device-context opening.

Machine integers are modelled as `Nat`/`Int` with explicit reductions
where the Rust code performs `as` casts; fallible code returns
`Except String`; raw pointers that are only ever set to null are
modelled as `Option` values set to `none`; the scatter-gather pointer
`sg_list` is modelled as the list it points at.
-/

namespace Rrddmma

/-! ### Verbs ABI constants

Numeric values of the `ibv_wr_opcode`, `ibv_send_flags`, `ibv_mtu` and
`ibv_port_state` enumerations, as fixed by the verbs ABI consumed through
the `rdma_sys` bindings. -/

/-- Opcode `IBV_WR_RDMA_WRITE` (ABI value 0). -/
def IBV_WR_RDMA_WRITE : Nat := 0

/-- Opcode `IBV_WR_RDMA_WRITE_WITH_IMM` (ABI value 1). -/
def IBV_WR_RDMA_WRITE_WITH_IMM : Nat := 1

/-- Opcode `IBV_WR_SEND` (ABI value 2). -/
def IBV_WR_SEND : Nat := 2

/-- Opcode `IBV_WR_SEND_WITH_IMM` (ABI value 3). -/
def IBV_WR_SEND_WITH_IMM : Nat := 3

/-- Opcode `IBV_WR_RDMA_READ` (ABI value 4). -/
def IBV_WR_RDMA_READ : Nat := 4

/-- Send flag `IBV_SEND_SIGNALED` (ABI value 2, bit 1). -/
def IBV_SEND_SIGNALED : Nat := 2

/-- Port state `IBV_PORT_ACTIVE` (ABI value 4). -/
def IBV_PORT_ACTIVE : Nat := 4

/-- Transfer-unit code `IBV_MTU_256` (ABI value 1). -/
def IBV_MTU_256 : Nat := 1

/-- Transfer-unit code `IBV_MTU_512` (ABI value 2). -/
def IBV_MTU_512 : Nat := 2

/-- Transfer-unit code `IBV_MTU_1024` (ABI value 3). -/
def IBV_MTU_1024 : Nat := 3

/-- Transfer-unit code `IBV_MTU_2048` (ABI value 4). -/
def IBV_MTU_2048 : Nat := 4

/-- Transfer-unit code `IBV_MTU_4096` (ABI value 5). -/
def IBV_MTU_4096 : Nat := 5

/-- Rust `usize as i32`: truncate to the low 32 bits and reinterpret as a
two's-complement signed 32-bit value. -/
def i32_of_usize (n : Nat) : Int :=
  if n % 2 ^ 32 < 2 ^ 31 then ((n % 2 ^ 32 : Nat) : Int)
  else ((n % 2 ^ 32 : Nat) : Int) - 2 ^ 32

/-! ### Work requests (`src/rdma/wr.rs`) -/

/-- A scatter-gather entry `ibv_sge`: (address, length, local key). -/
structure ibv_sge where
  addr : Nat
  length : Nat
  lkey : Nat
deriving DecidableEq, Repr

/-- A local memory-region slice (`MrSlice` of `src/rdma/mr.rs`, a file not
present here): the view's address, length, and the region's local key. -/
structure MrSlice where
  addr : Nat
  length : Nat
  lkey : Nat
deriving DecidableEq, Repr

/-- Modelled from the spec: `build_sgl` (`src/rdma/qp.rs`, a file not present
here) derives one scatter-gather entry — an (address, length, local-key)
triple — from each memory slice, in order. -/
def build_sgl (slices : List MrSlice) : List ibv_sge :=
  slices.map fun s => ⟨s.addr, s.length, s.lkey⟩

/-- Modelled from the spec: the datagram-peer addressing handle `ud_t`
(`src/rdma/qp.rs`, a file not present here): address handle, remote queue
pair number, remote queue key. -/
structure ud_t where
  ah : Nat
  remote_qpn : Nat
  remote_qkey : Nat
deriving DecidableEq, Repr

/-- Modelled from the spec: a queue-pair peer (`QpPeer` of `src/rdma/qp.rs`,
a file not present here), reduced to the datagram addressing it converts to. -/
structure QpPeer where
  ud : ud_t
deriving DecidableEq, Repr

/-- Modelled from the spec: a remote memory-region slice (`RemoteMrSlice` of
`src/rdma/mr.rs`, a file not present here): remote address, length, and the
region's remote key. -/
structure RemoteMrSlice where
  addr : Nat
  length : Nat
  rkey : Nat
deriving DecidableEq, Repr

/-- The `rdma` member of the `ibv_send_wr` work-request union:
remote address and remote key. -/
structure rdma_t where
  remote_addr : Nat
  rkey : Nat
deriving DecidableEq, Repr

/-- Modelled from the spec: `rdma_t::from(&RemoteMrSlice)` (`src/rdma/mr.rs`,
a file not present here) extracts the remote address and remote key. -/
def rdma_t.ofRemote (r : RemoteMrSlice) : rdma_t :=
  ⟨r.addr, r.rkey⟩

/-- Modelled from the spec: `ud_t::from(&QpPeer)` (`src/rdma/qp.rs`, a file
not present here) extracts the peer's datagram addressing. -/
def ud_t.ofPeer (p : QpPeer) : ud_t :=
  p.ud

/-- The operation-specific union `wr` inside `ibv_send_wr`. `zeroed` is the
all-zero bytes left by `mem::zeroed()` when no member is written. -/
inductive WrUnion where
  | zeroed : WrUnion
  | ud : ud_t → WrUnion
  | rdma : rdma_t → WrUnion
deriving DecidableEq, Repr

/-- The hardware send descriptor `ibv_send_wr`, restricted to the fields the
code writes or that `mem::zeroed()` initialises and the claims mention.
`sg_list` is the list the descriptor's pointer refers to; `next` is a
pointer modelled as an `Option` (null = `none`). -/
structure ibv_send_wr where
  wr_id : Nat
  sg_list : List ibv_sge
  num_sge : Int
  send_flags : Nat
  next : Option Unit
  opcode : Nat
  imm_data : Nat
  wr : WrUnion
deriving DecidableEq, Repr

/-- `mem::zeroed::<ibv_send_wr>()`. -/
def zeroed_send_wr : ibv_send_wr :=
  ⟨0, [], 0, 0, none, 0, 0, .zeroed⟩

/-- Basic work-request parameters (`WrBase`): the built scatter-gather list,
the caller-chosen request id, and the signal flag. The `PhantomData`
lifetime marker carries no data and is omitted. -/
structure WrBase where
  local_ : List ibv_sge
  wr_id : Nat
  signal : Bool
deriving DecidableEq, Repr

/-- Send work request elements other than the basics (`SendWrDetails`). The
`Read` variant has no immediate field: the type itself makes a Read-with-
immediate unrepresentable. -/
inductive SendWrDetails where
  | Send : Option Nat → SendWrDetails
  | SendTo : QpPeer → Option Nat → SendWrDetails
  | Read : RemoteMrSlice → SendWrDetails
  | Write : RemoteMrSlice → Option Nat → SendWrDetails
deriving DecidableEq, Repr

/-- The immediate value a `SendWrDetails` variant carries, if any. The `Read`
variant structurally has none. -/
def SendWrDetails.imm : SendWrDetails → Option Nat
  | .Send i => i
  | .SendTo _ i => i
  | .Read _ => none
  | .Write _ i => i

/-- A send work request `SendWr(WrBase, SendWrDetails)`. -/
structure SendWr where
  base : WrBase
  details : SendWrDetails
deriving DecidableEq, Repr

/-- `SendWr::new`: build the scatter-gather list from the slices and pair the
basics with the operation details. -/
def SendWr.new (local_ : List MrSlice) (wr_id : Nat) (signal : Bool)
    (additions : SendWrDetails) : SendWr :=
  ⟨⟨build_sgl local_, wr_id, signal⟩, additions⟩

/-- The local helper `fill_opcode_with_imm` inside `SendWr::to_wr`: when an
immediate is present, select the with-immediate opcode and store the
immediate in the descriptor union; otherwise select the plain opcode. -/
def fill_opcode_with_imm (wr : ibv_send_wr) (imm : Option Nat)
    (op op_with_imm : Nat) : ibv_send_wr :=
  match imm with
  | some v => { wr with opcode := op_with_imm, imm_data := v }
  | none => { wr with opcode := op }

/-- `SendWr::to_wr`: translate the `SendWr` into an `ibv_send_wr`. -/
def SendWr.to_wr (s : SendWr) : ibv_send_wr :=
  let wr := zeroed_send_wr
  let wr := { wr with
    wr_id := s.base.wr_id,
    sg_list := s.base.local_,
    num_sge := i32_of_usize s.base.local_.length,
    send_flags := if s.base.signal then IBV_SEND_SIGNALED else 0,
    next := none }
  match s.details with
  | .Send imm =>
      fill_opcode_with_imm wr imm IBV_WR_SEND IBV_WR_SEND_WITH_IMM
  | .SendTo peer imm =>
      fill_opcode_with_imm { wr with wr := .ud (ud_t.ofPeer peer) } imm
        IBV_WR_SEND IBV_WR_SEND_WITH_IMM
  | .Read remote =>
      { wr with wr := .rdma (rdma_t.ofRemote remote),
                opcode := IBV_WR_RDMA_READ }
  | .Write remote imm =>
      fill_opcode_with_imm { wr with wr := .rdma (rdma_t.ofRemote remote) } imm
        IBV_WR_RDMA_WRITE IBV_WR_RDMA_WRITE_WITH_IMM

/-- The hardware receive descriptor `ibv_recv_wr`: request id, scatter-gather
list, its length as `i32`, and the chain pointer (null = `none`). -/
structure ibv_recv_wr where
  wr_id : Nat
  sg_list : List ibv_sge
  num_sge : Int
  next : Option Unit
deriving DecidableEq, Repr

/-- A receive work request `RecvWr(WrBase)`. -/
structure RecvWr where
  base : WrBase
deriving DecidableEq, Repr

/-- `RecvWr::new`: build the scatter-gather list from the slices. -/
def RecvWr.new (local_ : List MrSlice) (wr_id : Nat) (signal : Bool) : RecvWr :=
  ⟨⟨build_sgl local_, wr_id, signal⟩⟩

/-- `RecvWr::to_wr`: translate the `RecvWr` into an `ibv_recv_wr`. -/
def RecvWr.to_wr (r : RecvWr) : ibv_recv_wr :=
  ⟨r.base.wr_id, r.base.local_, i32_of_usize r.base.local_.length, none⟩

/-! ### Device context (`src/rdma/context.rs`)

The device-enumeration collaborator (`src/rdma/device.rs`) is not present
here; its handles and queries are modelled from the spec's contracts for
it. The open/selection/caching logic below it is translated from
`src/rdma/context.rs`. -/

/-- The port attributes `ibv_port_attr`, restricted to the fields the code
reads: link state, LID, active transfer-unit code, and the GID table
length (an `i32` reported by the driver). -/
structure ibv_port_attr where
  state : Nat
  lid : Nat
  active_mtu : Nat
  gid_tbl_len : Int
deriving DecidableEq, Repr

/-- The device attributes `ibv_device_attr`, restricted to the field the
code reads: the physical port count. -/
structure ibv_device_attr where
  phys_port_cnt : Nat
deriving DecidableEq, Repr

/-- Modelled from the spec: one enumerable device (`Device` of
`src/rdma/device.rs`, a file not present here): its name, the attributes a
device query reports, per-port attributes (entry `n - 1` of `port_attrs` is
port `n`), and its GID table. The opened device handle (`ibv_context`) is
identified with the device itself. -/
structure Device where
  name : String
  phys_port_cnt : Nat
  port_attrs : List ibv_port_attr
  gid_tbl : List Nat
deriving DecidableEq, Repr

/-- Modelled from the spec: the device-enumeration environment. `list_ok`
states whether obtaining the device list (`DeviceList::new`) succeeds;
`devices` is the enumeration order. -/
structure Env where
  list_ok : Bool
  devices : List Device
deriving DecidableEq, Repr

/-- Modelled from the spec: `DeviceList::new()` (`src/rdma/device.rs`, a
file not present here) obtains the device list or fails. -/
def DeviceList.new (env : Env) : Except String (List Device) :=
  if env.list_ok then .ok env.devices else .error "failed to get device list"

/-- Modelled from the spec: `query_device` (`src/rdma/device.rs`, a file not
present here) reports the device-wide attributes. -/
def query_device (d : Device) : Except String ibv_device_attr :=
  .ok ⟨d.phys_port_cnt⟩

/-- Modelled from the spec: `query_port` (`src/rdma/device.rs`, a file not
present here) reports the attributes of port `pn` (ports are 1-indexed), or
fails when the device has no such port. -/
def query_port (d : Device) (pn : Nat) : Except String ibv_port_attr :=
  match d.port_attrs[pn - 1]? with
  | some a => .ok a
  | none => .error "failed to query port"

/-- Modelled from the spec: `ibv_query_gid` reports the GID stored at
`idx` in the port's GID table, or fails when the index is out of range. -/
def ibv_query_gid (d : Device) (idx : Nat) : Except String Nat :=
  match d.gid_tbl[idx]? with
  | some g => .ok g
  | none => .error "failed to query GID"

/-- Modelled from the spec: the active port numbers of one device, in port
order, paired with the device (`DeviceList::iter` yields these per device). -/
def devActivePorts (d : Device) : List (Device × Nat) :=
  ((List.range d.port_attrs.length).filter fun i =>
      match d.port_attrs[i]? with
      | some a => a.state == IBV_PORT_ACTIVE
      | none => false).map fun i => (d, i + 1)

/-- Modelled from the spec: `DeviceList::iter` (`src/rdma/device.rs`, a file
not present here) scans all devices in enumeration order and yields the
active ports across all devices, in order. -/
def activePorts (devices : List Device) : List (Device × Nat) :=
  devices.flatMap devActivePorts

/-- The cached state `ContextInner`: the opened device handle, the
device-wide attribute snapshot, the chosen port's attribute snapshot, the
chosen port number, the queried GID, and the user-supplied GID index. -/
structure ContextInner where
  ctx : Device
  dev_attr : ibv_device_attr
  port_attr : ibv_port_attr
  port_num : Nat
  gid : Nat
  gid_index : Nat
deriving DecidableEq, Repr

/-- The named-device arm of `Context::open`: find the device by name
(`device not found` if absent), query its attributes, reject a port number
beyond the physical port count (`invalid port number N`), query the port,
and reject a port that is not active (`port N is not active`). -/
def selectNamed (dev_list : List Device) (dev_name : String) (port_num : Nat) :
    Except String (Device × ibv_device_attr × Nat × ibv_port_attr) :=
  match dev_list.find? (fun d => dev_name == d.name) with
  | none => .error "device not found"
  | some dev =>
    match query_device dev with
    | .error e => .error e
    | .ok dev_attr =>
      if dev_attr.phys_port_cnt < port_num then
        .error ("invalid port number " ++ toString port_num)
      else
        match query_port dev port_num with
        | .error e => .error e
        | .ok port_attr =>
          if port_attr.state ≠ IBV_PORT_ACTIVE then
            .error ("port " ++ toString port_num ++ " is not active")
          else
            .ok (dev, dev_attr, port_num, port_attr)

/-- The unnamed arm of `Context::open`: take the `port_num`-th (1-indexed)
active port across all devices (`not enough active ports found` if there
are fewer), then query its device and port attributes. -/
def selectNth (dev_list : List Device) (port_num : Nat) :
    Except String (Device × ibv_device_attr × Nat × ibv_port_attr) :=
  match (activePorts dev_list)[port_num - 1]? with
  | none => .error "not enough active ports found"
  | some (ctx, pn) =>
    match query_device ctx with
    | .error e => .error e
    | .ok dev_attr =>
      match query_port ctx pn with
      | .error e => .error e
      | .ok port_attr => .ok (ctx, dev_attr, pn, port_attr)

/-- The GID block of `Context::open`: reduce the user-supplied index as
`(gid_index as i32 % port_attr.gid_tbl_len) as u8` (a Rust `%` on `i32` is
a truncated remainder, and `% 0` panics), then query the GID at the reduced
index. -/
def queryGidAtOpen (ctx : Device) (port_attr : ibv_port_attr)
    (gid_index : Nat) : Except String Nat :=
  if port_attr.gid_tbl_len = 0 then
    .error "panic: attempt to calculate the remainder with a divisor of zero"
  else
    ibv_query_gid ctx ((Int.tmod (gid_index : Int) port_attr.gid_tbl_len).toNat % 2 ^ 8)

/-- `Context::open`: reject a zero port number before any device access,
obtain the device list, select the device and port (by name or as the
`port_num`-th active port), query the GID, and cache every queried
attribute in the returned `ContextInner`. -/
def Context.openDev (env : Env) (dev_name : Option String)
    (port_num gid_index : Nat) : Except String ContextInner :=
  if port_num = 0 then .error "port number must be non-zero"
  else
    match DeviceList.new env with
    | .error e => .error e
    | .ok dev_list =>
      match
        (match dev_name with
         | some dn => selectNamed dev_list dn port_num
         | none => selectNth dev_list port_num) with
      | .error e => .error e
      | .ok (ctx, dev_attr, pn, port_attr) =>
        match queryGidAtOpen ctx port_attr gid_index with
        | .error e => .error e
        | .ok gid => .ok ⟨ctx, dev_attr, port_attr, pn, gid, gid_index⟩

/-- `Context::lid`: read the cached port attributes. -/
def Context.lid (c : ContextInner) : Nat :=
  c.port_attr.lid

/-- `Context::port_num`: read the cached port number. -/
def Context.portNum (c : ContextInner) : Nat :=
  c.port_num

/-- `Context::gid`: read the cached GID. -/
def Context.gid (c : ContextInner) : Nat :=
  c.gid

/-- `Context::gid_index`: read the cached user-supplied GID index. -/
def Context.gidIndex (c : ContextInner) : Nat :=
  c.gid_index

/-- `Context::mtu`: map the cached active transfer-unit code to a byte
count. The `unreachable_unchecked` fallthrough is modelled as `none`. -/
def Context.mtu (c : ContextInner) : Option Nat :=
  if c.port_attr.active_mtu = IBV_MTU_256 then some 256
  else if c.port_attr.active_mtu = IBV_MTU_512 then some 512
  else if c.port_attr.active_mtu = IBV_MTU_1024 then some 1024
  else if c.port_attr.active_mtu = IBV_MTU_2048 then some 2048
  else if c.port_attr.active_mtu = IBV_MTU_4096 then some 4096
  else none

/-- `Context::mtu_raw`: read the cached active transfer-unit code. -/
def Context.mtuRaw (c : ContextInner) : Nat :=
  c.port_attr.active_mtu

/-! ### Helper lemmas -/

/-- `fill_opcode_with_imm` leaves the request id unchanged. -/
lemma fill_wr_id (wr : ibv_send_wr) (imm : Option Nat) (op opi : Nat) :
    (fill_opcode_with_imm wr imm op opi).wr_id = wr.wr_id := by
  cases imm <;> rfl

/-- `fill_opcode_with_imm` leaves the scatter-gather list unchanged. -/
lemma fill_sg_list (wr : ibv_send_wr) (imm : Option Nat) (op opi : Nat) :
    (fill_opcode_with_imm wr imm op opi).sg_list = wr.sg_list := by
  cases imm <;> rfl

/-- `fill_opcode_with_imm` leaves the entry count unchanged. -/
lemma fill_num_sge (wr : ibv_send_wr) (imm : Option Nat) (op opi : Nat) :
    (fill_opcode_with_imm wr imm op opi).num_sge = wr.num_sge := by
  cases imm <;> rfl

/-- `fill_opcode_with_imm` leaves the send flags unchanged. -/
lemma fill_send_flags (wr : ibv_send_wr) (imm : Option Nat) (op opi : Nat) :
    (fill_opcode_with_imm wr imm op opi).send_flags = wr.send_flags := by
  cases imm <;> rfl

/-- `fill_opcode_with_imm` leaves the chain pointer unchanged. -/
lemma fill_next (wr : ibv_send_wr) (imm : Option Nat) (op opi : Nat) :
    (fill_opcode_with_imm wr imm op opi).next = wr.next := by
  cases imm <;> rfl

/-- `fill_opcode_with_imm` selects the with-immediate opcode exactly when an
immediate is present. -/
lemma fill_opcode (wr : ibv_send_wr) (imm : Option Nat) (op opi : Nat) :
    (fill_opcode_with_imm wr imm op opi).opcode
      = if imm.isSome then opi else op := by
  cases imm <;> rfl

/-- `fill_opcode_with_imm` stores the immediate when present and otherwise
leaves the union bytes as they were. -/
lemma fill_imm_data (wr : ibv_send_wr) (imm : Option Nat) (op opi : Nat) :
    (fill_opcode_with_imm wr imm op opi).imm_data = imm.getD wr.imm_data := by
  cases imm <;> rfl

/-- On a length below `2^31` the `usize as i32` cast is the identity. -/
lemma i32_of_usize_eq_of_lt {n : Nat} (h : n < 2 ^ 31) :
    i32_of_usize n = (n : Int) := by
  unfold i32_of_usize
  rw [Nat.mod_eq_of_lt (lt_trans h (by norm_num)), if_pos h]

/-! ### Claim theorems: work requests -/

/-- C1: for `Send`, `SendTo` and `Write` details alike, `to_wr()` selects the
with-immediate opcode (`IBV_WR_SEND_WITH_IMM` / `IBV_WR_RDMA_WRITE_WITH_IMM`)
and stores the immediate in the descriptor exactly when an immediate is
present, and the plain opcode (`IBV_WR_SEND` / `IBV_WR_RDMA_WRITE`) when it
is absent; the selection rule is the same for all three variants. -/
theorem send_write_imm_opcode_selection (base : WrBase) (imm : Option Nat)
    (peer : QpPeer) (remote : RemoteMrSlice) :
    ((⟨base, .Send imm⟩ : SendWr).to_wr.opcode
        = if imm.isSome then IBV_WR_SEND_WITH_IMM else IBV_WR_SEND) ∧
    ((⟨base, .SendTo peer imm⟩ : SendWr).to_wr.opcode
        = if imm.isSome then IBV_WR_SEND_WITH_IMM else IBV_WR_SEND) ∧
    ((⟨base, .Write remote imm⟩ : SendWr).to_wr.opcode
        = if imm.isSome then IBV_WR_RDMA_WRITE_WITH_IMM else IBV_WR_RDMA_WRITE) ∧
    ((⟨base, .Send imm⟩ : SendWr).to_wr.imm_data = imm.getD 0) ∧
    ((⟨base, .SendTo peer imm⟩ : SendWr).to_wr.imm_data = imm.getD 0) ∧
    ((⟨base, .Write remote imm⟩ : SendWr).to_wr.imm_data = imm.getD 0) := by
  refine ⟨?_, ?_, ?_, ?_, ?_, ?_⟩ <;>
    simp [SendWr.to_wr, fill_opcode, fill_imm_data, zeroed_send_wr]

/-- C2: a Read work request can never carry an immediate: the `Read` variant
has no immediate field (`SendWrDetails.imm` is structurally `none` on it),
and `to_wr()` on a Read detail always sets `IBV_WR_RDMA_READ`, never a
with-immediate opcode, leaving the immediate bytes zeroed. -/
theorem read_opcode_never_with_imm (base : WrBase) (remote : RemoteMrSlice) :
    (⟨base, .Read remote⟩ : SendWr).to_wr.opcode = IBV_WR_RDMA_READ ∧
    (⟨base, .Read remote⟩ : SendWr).to_wr.opcode ≠ IBV_WR_SEND_WITH_IMM ∧
    (⟨base, .Read remote⟩ : SendWr).to_wr.opcode ≠ IBV_WR_RDMA_WRITE_WITH_IMM ∧
    SendWrDetails.imm (.Read remote) = none ∧
    (⟨base, .Read remote⟩ : SendWr).to_wr.imm_data = 0 := by
  refine ⟨rfl, ?_, ?_, rfl, rfl⟩ <;>
    simp [SendWr.to_wr, zeroed_send_wr, IBV_WR_RDMA_READ,
      IBV_WR_SEND_WITH_IMM, IBV_WR_RDMA_WRITE_WITH_IMM]

/-- C2 witness: a concrete Read request translated to `IBV_WR_RDMA_READ`,
via `read_opcode_never_with_imm`. -/
theorem read_opcode_never_with_imm_witness :
    (⟨⟨[], 1, false⟩, .Read ⟨0, 8, 5⟩⟩ : SendWr).to_wr.opcode
      = IBV_WR_RDMA_READ :=
  (read_opcode_never_with_imm ⟨[], 1, false⟩ ⟨0, 8, 5⟩).1

/-- C4: the descriptor `to_wr()` produces carries exactly the builder's
fields: the caller-chosen `wr_id`, the built scatter-gather list and its
length as `num_sge`, `send_flags` containing `IBV_SEND_SIGNALED` exactly
when the signal flag is set (and `0` otherwise), and a null `next`. -/
theorem to_wr_reflects_builder (s : SendWr)
    (h : s.base.local_.length < 2 ^ 31) :
    s.to_wr.wr_id = s.base.wr_id ∧
    s.to_wr.sg_list = s.base.local_ ∧
    s.to_wr.num_sge = (s.base.local_.length : Int) ∧
    s.to_wr.send_flags = (if s.base.signal then IBV_SEND_SIGNALED else 0) ∧
    (s.to_wr.send_flags &&& IBV_SEND_SIGNALED ≠ 0 ↔ s.base.signal = true) ∧
    s.to_wr.next = none := by
  obtain ⟨b, d⟩ := s
  simp only at h
  cases d <;> cases hb : b.signal <;>
    simp [SendWr.to_wr, fill_wr_id, fill_sg_list, fill_num_sge,
      fill_send_flags, fill_next, i32_of_usize_eq_of_lt h, hb,
      IBV_SEND_SIGNALED]

/-- C4 witness: a concrete one-entry signaled send request, evaluated through
`to_wr_reflects_builder`. -/
theorem to_wr_reflects_builder_witness :
    (⟨⟨[⟨100, 8, 7⟩], 42, true⟩, .Send none⟩ : SendWr).to_wr.next = none :=
  (to_wr_reflects_builder ⟨⟨[⟨100, 8, 7⟩], 42, true⟩, .Send none⟩
    (by decide)).2.2.2.2.2

/-- C10: the receive descriptor does not depend on the signal flag: two
`RecvWr` values built from the same slices and request id but different
signal arguments translate to identical `ibv_recv_wr` descriptors, and the
descriptor writes only the request id, the scatter-gather list, its length,
and a null chain pointer. -/
theorem recv_to_wr_signal_independent (local_ : List MrSlice) (wr_id : Nat)
    (s1 s2 : Bool) :
    (RecvWr.new local_ wr_id s1).to_wr = (RecvWr.new local_ wr_id s2).to_wr ∧
    (RecvWr.new local_ wr_id s1).to_wr.wr_id = wr_id ∧
    (RecvWr.new local_ wr_id s1).to_wr.sg_list = build_sgl local_ ∧
    (RecvWr.new local_ wr_id s1).to_wr.num_sge
      = i32_of_usize (build_sgl local_).length ∧
    (RecvWr.new local_ wr_id s1).to_wr.next = none :=
  ⟨rfl, rfl, rfl, rfl, rfl⟩

/-! ### Helper lemmas: device-context opening -/

/-- Inversion of the named-device arm: a success means the device was found
by name, the attribute snapshots are the query results, the chosen port
number is within the physical port count, and the port is active. -/
lemma selectNamed_ok_inv {dl : List Device} {dn : String} {pn : Nat}
    {d : Device} {da : ibv_device_attr} {pn2 : Nat} {pa : ibv_port_attr}
    (h : selectNamed dl dn pn = .ok (d, da, pn2, pa)) :
    dl.find? (fun x => dn == x.name) = some d ∧ da = ⟨d.phys_port_cnt⟩ ∧
    pn2 = pn ∧ ¬ d.phys_port_cnt < pn ∧ query_port d pn = .ok pa ∧
    pa.state = IBV_PORT_ACTIVE := by
  unfold selectNamed at h
  simp only [query_device] at h
  split at h
  · cases h
  · split at h
    · cases h
    · split at h
      · cases h
      · split at h
        · cases h
        · cases h
          simp_all

/-- Inversion of the unnamed arm: a success means the chosen pair is the
`N`-th entry of the active-port scan and the snapshots are query results. -/
lemma selectNth_ok_inv {dl : List Device} {N : Nat}
    {d : Device} {da : ibv_device_attr} {pn : Nat} {pa : ibv_port_attr}
    (h : selectNth dl N = .ok (d, da, pn, pa)) :
    (activePorts dl)[N - 1]? = some (d, pn) ∧ da = ⟨d.phys_port_cnt⟩ ∧
    query_port d pn = .ok pa := by
  unfold selectNth at h
  simp only [query_device] at h
  split at h
  · cases h
  · split at h
    · cases h
    · cases h
      simp_all

/-- Inversion of `Context::open`: a success means the port number was
non-zero, the device list was obtained, every cached snapshot equals the
corresponding open-time query result, and the stored GID index is the
user-supplied one. -/
lemma openDev_ok_inv {env : Env} {dn : Option String} {pn g : Nat}
    {c : ContextInner} (h : Context.openDev env dn pn g = .ok c) :
    pn ≠ 0 ∧ env.list_ok = true ∧
    query_device c.ctx = .ok c.dev_attr ∧
    query_port c.ctx c.port_num = .ok c.port_attr ∧
    queryGidAtOpen c.ctx c.port_attr g = .ok c.gid ∧
    c.gid_index = g := by
  unfold Context.openDev at h
  split at h
  · exact absurd h (by simp)
  rename_i hpn
  simp only [DeviceList.new] at h
  split at h
  · exact absurd h (by simp)
  rename_i dev_list heq
  split at h
  · exact absurd h (by simp)
  rename_i ctx da pn2 pa hsel
  split at h
  · exact absurd h (by simp)
  rename_i gd hgid
  injection h with h2
  subst h2
  have hok : env.list_ok = true := by
    by_contra hno
    simp [hno] at heq
  refine ⟨hpn, hok, ?_, ?_, hgid, rfl⟩
  · cases dn with
    | some s =>
      obtain ⟨_, hda, _, _, _, _⟩ := selectNamed_ok_inv hsel
      simp [query_device, hda]
    | none =>
      obtain ⟨_, hda, _⟩ := selectNth_ok_inv hsel
      simp [query_device, hda]
  · cases dn with
    | some s =>
      obtain ⟨_, _, hpn2, _, hqp, _⟩ := selectNamed_ok_inv hsel
      simp_all
    | none =>
      obtain ⟨_, _, hqp⟩ := selectNth_ok_inv hsel
      simp_all

/-- Every pair the active-port scan yields names an existing port of its
device whose state is active. -/
lemma activePorts_mem {devices : List Device} {d : Device} {pn : Nat}
    (h : (d, pn) ∈ activePorts devices) :
    ∃ pa, d.port_attrs[pn - 1]? = some pa ∧ pa.state = IBV_PORT_ACTIVE := by
  unfold activePorts at h
  rw [List.mem_flatMap] at h
  obtain ⟨dev, _hdev, hmem⟩ := h
  unfold devActivePorts at hmem
  rw [List.mem_map] at hmem
  obtain ⟨i, hi, heq⟩ := hmem
  cases heq
  rw [List.mem_filter] at hi
  obtain ⟨_, hpred⟩ := hi
  cases hget : d.port_attrs[i]? with
  | none => rw [hget] at hpred; cases hpred
  | some a =>
    rw [hget] at hpred
    refine ⟨a, by simpa using hget, by simpa using hpred⟩

/-- With fewer than `N` active ports across all devices, the unnamed open
fails with the dedicated error. -/
lemma open_nth_insufficient (env : Env) (N g : Nat) (hN : N ≠ 0)
    (hok : env.list_ok = true)
    (hlt : (activePorts env.devices).length < N) :
    Context.openDev env none N g = .error "not enough active ports found" := by
  have hnone : (activePorts env.devices)[N - 1]? = none :=
    List.getElem?_eq_none (by omega)
  simp [Context.openDev, hN, DeviceList.new, hok, selectNth, hnone]

/-- When the active-port scan has an `N`-th entry, the unnamed open selects
exactly that device and port, and the rest of the open depends only on the
GID query on that port. -/
lemma open_nth_selected (env : Env) (N g : Nat) (hN : N ≠ 0)
    (hok : env.list_ok = true) (d : Device) (pn : Nat)
    (hget : (activePorts env.devices)[N - 1]? = some (d, pn)) :
    ∃ pa, d.port_attrs[pn - 1]? = some pa ∧ pa.state = IBV_PORT_ACTIVE ∧
      Context.openDev env none N g =
        (match queryGidAtOpen d pa g with
         | .ok gd => .ok ⟨d, ⟨d.phys_port_cnt⟩, pa, pn, gd, g⟩
         | .error e => .error e) := by
  obtain ⟨pa, hpa, hact⟩ := activePorts_mem (List.getElem?_mem hget)
  refine ⟨pa, hpa, hact, ?_⟩
  have hqp : query_port d pn = .ok pa := by simp [query_port, hpa]
  simp only [Context.openDev, hN, if_neg, DeviceList.new, hok, if_true,
    selectNth, hget, query_device, hqp]
  cases hgid : queryGidAtOpen d pa g <;> simp [hgid]

/-- Opening a named device that the enumeration does not contain fails with
the `device not found` error. -/
lemma open_named_not_found (env : Env) (dn : String) (pn g : Nat)
    (hok : env.list_ok = true) (hpn : pn ≠ 0)
    (hfind : env.devices.find? (fun x => dn == x.name) = none) :
    Context.openDev env (some dn) pn g = .error "device not found" := by
  simp [Context.openDev, hpn, DeviceList.new, hok, selectNamed, hfind]

/-- Opening a named device on a port beyond its physical port count fails
with the `invalid port number` error. -/
lemma open_named_invalid_port (env : Env) (dn : String) (pn g : Nat)
    (hok : env.list_ok = true) (hpn : pn ≠ 0) (d : Device)
    (hfind : env.devices.find? (fun x => dn == x.name) = some d)
    (hlt : d.phys_port_cnt < pn) :
    Context.openDev env (some dn) pn g
      = .error ("invalid port number " ++ toString pn) := by
  simp [Context.openDev, hpn, DeviceList.new, hok, selectNamed, hfind,
    query_device, hlt]

/-- Opening a named device on an existing but inactive port fails with the
`port is not active` error. -/
lemma open_named_not_active (env : Env) (dn : String) (pn g : Nat)
    (hok : env.list_ok = true) (hpn : pn ≠ 0) (d : Device)
    (hfind : env.devices.find? (fun x => dn == x.name) = some d)
    (hnlt : ¬ d.phys_port_cnt < pn) (pa : ibv_port_attr)
    (hpa : d.port_attrs[pn - 1]? = some pa)
    (hstate : pa.state ≠ IBV_PORT_ACTIVE) :
    Context.openDev env (some dn) pn g
      = .error ("port " ++ toString pn ++ " is not active") := by
  simp [Context.openDev, hpn, DeviceList.new, hok, selectNamed, hfind,
    query_device, hnlt, query_port, hpa, hstate]

/-- The `device not found` message differs from every `invalid port number`
message (their first characters differ). -/
lemma dnf_ne_invalid (n : Nat) :
    "device not found" ≠ "invalid port number " ++ toString n := by
  intro h
  have hd := congrArg String.data h
  have h2 : ("invalid port number " ++ toString n).data
      = 'i' :: ("nvalid port number ".data ++ (toString n).data) := rfl
  rw [h2] at hd
  exact absurd (List.head_eq_of_cons_eq hd) (by decide)

/-- The `device not found` message differs from every `port … is not active`
message (their first characters differ). -/
lemma dnf_ne_inactive (n : Nat) :
    "device not found" ≠ "port " ++ toString n ++ " is not active" := by
  intro h
  have hd := congrArg String.data h
  have h2 : ("port " ++ toString n ++ " is not active").data
      = 'p' :: (("ort ".data ++ (toString n).data) ++ " is not active".data) := rfl
  rw [h2] at hd
  exact absurd (List.head_eq_of_cons_eq hd) (by decide)

/-- The `invalid port number` message differs from every `port … is not
active` message (their first characters differ). -/
lemma invalid_ne_inactive (n : Nat) :
    "invalid port number " ++ toString n
      ≠ "port " ++ toString n ++ " is not active" := by
  intro h
  have hd := congrArg String.data h
  have h1 : ("invalid port number " ++ toString n).data
      = 'i' :: ("nvalid port number ".data ++ (toString n).data) := rfl
  have h2 : ("port " ++ toString n ++ " is not active").data
      = 'p' :: (("ort ".data ++ (toString n).data) ++ " is not active".data) := rfl
  rw [h1, h2] at hd
  exact absurd (List.head_eq_of_cons_eq hd) (by decide)

/-- For a GID index below `2^8` and a positive table length, the reduction
`(gid_index as i32 % gid_tbl_len) as u8` is the plain remainder. -/
lemma gid_reduced_index (g : Nat) (L : Int) (hg : g < 2 ^ 8) (hL : 0 < L) :
    ((Int.tmod (g : Int) L).toNat % 2 ^ 8) = g % L.toNat := by
  have hLn : L = (L.toNat : Int) := by omega
  rw [hLn, ← Int.ofNat_tmod]
  have h1 : ((g % L.toNat : Nat) : Int).toNat = g % L.toNat := by omega
  rw [h1]
  have hlt : g % L.toNat < 2 ^ 8 := lt_of_le_of_lt (Nat.mod_le _ _) hg
  exact Nat.mod_eq_of_lt hlt

/-! ### Claim theorems: device context -/

/-- C3: when the cached active transfer-unit code is one of the five valid
enumerated codes, `mtu()` returns the corresponding byte count
(`256 * 2^(code - 1)`), which is always one of 256, 512, 1024, 2048 or
4096; the fallthrough (modelled as `none`) is not taken. -/
theorem mtu_maps_valid_codes (c : ContextInner)
    (h : c.port_attr.active_mtu = IBV_MTU_256 ∨
      c.port_attr.active_mtu = IBV_MTU_512 ∨
      c.port_attr.active_mtu = IBV_MTU_1024 ∨
      c.port_attr.active_mtu = IBV_MTU_2048 ∨
      c.port_attr.active_mtu = IBV_MTU_4096) :
    Context.mtu c = some (256 * 2 ^ (c.port_attr.active_mtu - 1)) ∧
    (Context.mtu c = some 256 ∨ Context.mtu c = some 512 ∨
      Context.mtu c = some 1024 ∨ Context.mtu c = some 2048 ∨
      Context.mtu c = some 4096) := by
  rcases h with h | h | h | h | h <;>
    simp [Context.mtu, h, IBV_MTU_256, IBV_MTU_512, IBV_MTU_1024,
      IBV_MTU_2048, IBV_MTU_4096]

/-- C3 witness: a cached code of `IBV_MTU_1024` maps to 1024 bytes, via
`mtu_maps_valid_codes`. -/
theorem mtu_maps_valid_codes_witness :
    Context.mtu ⟨⟨"mlx5_0", 1, [], []⟩, ⟨1⟩, ⟨4, 7, 3, 1⟩, 1, 0, 0⟩
      = some 1024 :=
  ((mtu_maps_valid_codes ⟨⟨"mlx5_0", 1, [], []⟩, ⟨1⟩, ⟨4, 7, 3, 1⟩, 1, 0, 0⟩
    (by decide)).1).trans (by norm_num)

/-- C5: for `Context::open(None, N, g)` with `N > 0` the devices are scanned
in enumeration order and the `N`-th active port across all devices
(1-indexed) is selected — it exists on its device and is active, and the
open's outcome is determined by that selection; with fewer than `N` active
ports the open fails with `not enough active ports found`. -/
theorem open_scans_nth_active_port (env : Env) (N g : Nat) (hN : N ≠ 0)
    (hok : env.list_ok = true) :
    ((activePorts env.devices).length < N →
      Context.openDev env none N g = .error "not enough active ports found") ∧
    ∀ d pn, (activePorts env.devices)[N - 1]? = some (d, pn) →
      ∃ pa, d.port_attrs[pn - 1]? = some pa ∧ pa.state = IBV_PORT_ACTIVE ∧
        Context.openDev env none N g =
          (match queryGidAtOpen d pa g with
           | .ok gd => .ok ⟨d, ⟨d.phys_port_cnt⟩, pa, pn, gd, g⟩
           | .error e => .error e) := by
  constructor
  · intro hlt
    exact open_nth_insufficient env N g hN hok hlt
  · intro d pn hget
    exact open_nth_selected env N g hN hok d pn hget

/-- C5 witness: with no devices there is no first active port, so
`open(None, 1, 0)` fails, via `open_scans_nth_active_port`. -/
theorem open_scans_nth_active_port_witness :
    Context.openDev ⟨true, []⟩ none 1 0
      = .error "not enough active ports found" :=
  (open_scans_nth_active_port ⟨true, []⟩ 1 0 (by decide) rfl).1 (by decide)

/-- C6: opening with `port_number = 0` fails with the dedicated error for
every device name and GID index and for every enumeration environment —
including one in which obtaining the device list itself would fail, so the
check fires before any device access. -/
theorem open_port_zero_fails (env : Env) (dev_name : Option String)
    (g : Nat) :
    Context.openDev env dev_name 0 g
      = .error "port number must be non-zero" ∧
    Context.openDev ⟨false, env.devices⟩ dev_name 0 g
      = .error "port number must be non-zero" :=
  ⟨rfl, rfl⟩

/-- C7: for a named open, the setup errors are distinct and surfaced at open
time: an absent name yields `device not found`; a port number beyond the
device's physical port count yields `invalid port number N`; an existing
but inactive port yields `port N is not active`; the three messages are
pairwise distinct, and any such error excludes a returned context. -/
theorem open_named_distinct_errors (env : Env) (dn : String) (pn g : Nat)
    (hok : env.list_ok = true) (hpn : pn ≠ 0) :
    (env.devices.find? (fun x => dn == x.name) = none →
      Context.openDev env (some dn) pn g = .error "device not found") ∧
    (∀ d, env.devices.find? (fun x => dn == x.name) = some d →
      (d.phys_port_cnt < pn →
        Context.openDev env (some dn) pn g
          = .error ("invalid port number " ++ toString pn)) ∧
      (∀ pa, ¬ d.phys_port_cnt < pn → d.port_attrs[pn - 1]? = some pa →
        pa.state ≠ IBV_PORT_ACTIVE →
        Context.openDev env (some dn) pn g
          = .error ("port " ++ toString pn ++ " is not active"))) ∧
    "device not found" ≠ "invalid port number " ++ toString pn ∧
    "device not found" ≠ "port " ++ toString pn ++ " is not active" ∧
    "invalid port number " ++ toString pn
      ≠ "port " ++ toString pn ++ " is not active" ∧
    ∀ e c, Context.openDev env (some dn) pn g = .error e →
      Context.openDev env (some dn) pn g ≠ .ok c := by
  refine ⟨fun hfind => open_named_not_found env dn pn g hok hpn hfind,
    fun d hfind => ⟨fun hlt =>
        open_named_invalid_port env dn pn g hok hpn d hfind hlt,
      fun pa hnlt hpa hstate =>
        open_named_not_active env dn pn g hok hpn d hfind hnlt pa hpa hstate⟩,
    dnf_ne_invalid pn, dnf_ne_inactive pn, invalid_ne_inactive pn,
    fun e c he hc => by rw [he] at hc; cases hc⟩

/-- C7 witness: an empty enumeration makes the named open fail with
`device not found`, via `open_named_distinct_errors`. -/
theorem open_named_distinct_errors_witness :
    Context.openDev ⟨true, []⟩ (some "mlx5_0") 1 0
      = .error "device not found" :=
  (open_named_distinct_errors ⟨true, []⟩ "mlx5_0" 1 0 rfl (by decide)).1 rfl

/-- C8: attributes are queried once at open time and cached: on a successful
open each cached snapshot equals the corresponding open-time query result,
and every accessor (`lid`, `port_num`, `gid`, `gid_index`, `mtu_raw`) reads
only the cached snapshot — the accessors take no environment at all, so
each returns the same value on every call. -/
theorem open_caches_attributes (env : Env) (dn : Option String) (pn g : Nat)
    (c : ContextInner) (h : Context.openDev env dn pn g = .ok c) :
    Context.lid c = c.port_attr.lid ∧
    Context.portNum c = c.port_num ∧
    Context.gid c = c.gid ∧
    Context.gidIndex c = c.gid_index ∧
    Context.mtuRaw c = c.port_attr.active_mtu ∧
    c.gid_index = g ∧
    query_device c.ctx = .ok c.dev_attr ∧
    query_port c.ctx c.port_num = .ok c.port_attr ∧
    queryGidAtOpen c.ctx c.port_attr g = .ok c.gid := by
  obtain ⟨_, _, hqd, hqp, hgid, hgi⟩ := openDev_ok_inv h
  exact ⟨rfl, rfl, rfl, rfl, rfl, hgi, hqd, hqp, hgid⟩

/-- C8 witness: a one-device, one-active-port open whose cached LID the
accessor reports, via `open_caches_attributes`. -/
theorem open_caches_attributes_witness :
    Context.lid ⟨⟨"mlx5_0", 1, [⟨4, 7, 5, 1⟩], [99]⟩, ⟨1⟩, ⟨4, 7, 5, 1⟩,
      1, 99, 0⟩ = 7 :=
  (open_caches_attributes ⟨true, [⟨"mlx5_0", 1, [⟨4, 7, 5, 1⟩], [99]⟩]⟩
    (some "mlx5_0") 1 0
    ⟨⟨"mlx5_0", 1, [⟨4, 7, 5, 1⟩], [99]⟩, ⟨1⟩, ⟨4, 7, 5, 1⟩, 1, 99, 0⟩
    rfl).1

/-- C9: on a successful open the GID stored in the context is the table
entry at index `gid_index % gid_tbl_len` — the user-supplied index reduced
modulo the table length — while `gid_index()` reports the original
unreduced value; whenever the supplied index reaches the table length, the
queried index therefore differs from the reported one. -/
theorem gid_index_wraps (env : Env) (dn : Option String) (pn g : Nat)
    (c : ContextInner) (h : Context.openDev env dn pn g = .ok c)
    (hg : g < 2 ^ 8) (hL : 0 < c.port_attr.gid_tbl_len) :
    Context.gidIndex c = g ∧
    c.ctx.gid_tbl[g % c.port_attr.gid_tbl_len.toNat]? = some (Context.gid c) ∧
    (c.port_attr.gid_tbl_len.toNat ≤ g →
      g % c.port_attr.gid_tbl_len.toNat ≠ g) := by
  obtain ⟨_, _, _, _, hgid, hgi⟩ := openDev_ok_inv h
  have hLz : c.port_attr.gid_tbl_len ≠ 0 := by omega
  unfold queryGidAtOpen at hgid
  rw [if_neg hLz, gid_reduced_index g c.port_attr.gid_tbl_len hg hL] at hgid
  unfold ibv_query_gid at hgid
  refine ⟨hgi, ?_, ?_⟩
  · cases hq : c.ctx.gid_tbl[g % c.port_attr.gid_tbl_len.toNat]? with
    | none => rw [hq] at hgid; cases hgid
    | some v =>
      rw [hq] at hgid
      injection hgid with hv
      rw [hv]
      rfl
  · intro hle
    have hpos : 0 < c.port_attr.gid_tbl_len.toNat := by omega
    have hm := Nat.mod_lt g hpos
    omega

/-- C9 witness: a GID table of length 1 opened with index 2 stores the GID
from index 0 while reporting index 2, via `gid_index_wraps`. -/
theorem gid_index_wraps_witness :
    Context.gidIndex ⟨⟨"mlx5_0", 1, [⟨4, 7, 5, 1⟩], [99]⟩, ⟨1⟩,
      ⟨4, 7, 5, 1⟩, 1, 99, 2⟩ = 2 :=
  (gid_index_wraps ⟨true, [⟨"mlx5_0", 1, [⟨4, 7, 5, 1⟩], [99]⟩]⟩
    (some "mlx5_0") 1 2
    ⟨⟨"mlx5_0", 1, [⟨4, 7, 5, 1⟩], [99]⟩, ⟨1⟩, ⟨4, 7, 5, 1⟩, 1, 99, 2⟩
    rfl (by decide) (by decide)).1

end Rrddmma
